import Mathlib

/-!
# XPMP2: aircraft labels (`src/2D.cpp`) and the remote client's globals
(`XPMP2-Remote/XPMP2-Remote.h`)

A shallow embedding of the label drawing code and of the remote client's
sender registry, followed by the properties established for them.

Conventions of the embedding:

* a C++ `float` is a value of `F32`: not-a-number, the two infinities, or a
  finite value; comparisons are the IEEE-754 ones (every comparison with
  not-a-number is false); the rounding arithmetic is a parameter
  (`FloatArith`), so every theorem holds for whatever the hardware computes;
* calls into the X-Plane SDK and into the log are recorded, in order, as a
  list of `Effect`s; values read from the simulator come from a `Host`;
* C++ globals and file statics are fields of explicit state records.
-/

namespace XPMP2

/-! ## The type `float` -/

/-- Values of the C++ type `float`. -/
inductive F32 where
  | nan
  | negInf
  | fin (q : ℚ)
  | posInf
  deriving DecidableEq

namespace F32

/-- C++ `a < b` on `float`: false as soon as one side is not-a-number. -/
def lt : F32 → F32 → Bool
  | nan, _ => false
  | _, nan => false
  | negInf, negInf => false
  | negInf, _ => true
  | _, negInf => false
  | fin a, fin b => decide (a < b)
  | fin _, posInf => true
  | posInf, _ => false

/-- C++ `a > b` on `float`. -/
def gt (a b : F32) : Bool := lt b a

/-- C++ `a <= b` on `float`: false as soon as one side is not-a-number. -/
def le : F32 → F32 → Bool
  | nan, _ => false
  | _, nan => false
  | negInf, _ => true
  | _, posInf => true
  | fin a, fin b => decide (a ≤ b)
  | fin _, negInf => false
  | posInf, _ => false

/-- C++ `std::isnan`. -/
def isNaN : F32 → Bool
  | nan => true
  | _ => false

/-- C++ `std::abs` on `float`. -/
def abs : F32 → F32
  | nan => nan
  | negInf => posInf
  | fin q => fin |q|
  | posInf => posInf

/-- C++ `std::min(a, b)`, which is `(b < a) ? b : a`. -/
def min (a b : F32) : F32 := if lt b a then b else a

end F32

/-- The rounding arithmetic of `float`, and the conversions from and to
integers, as the platform computes them. -/
structure FloatArith where
  add : F32 → F32 → F32
  sub : F32 → F32 → F32
  mul : F32 → F32 → F32
  div : F32 → F32 → F32
  /-- `(float)i` for an `int` -/
  ofInt : Int → F32
  /-- `std::lround` -/
  lround : F32 → Int

/-- The cast `(int)` of a `long` value: reduction into the 32 bit range. -/
def castInt (n : Int) : Int := (n + 2 ^ 31) % 2 ^ 32 - 2 ^ 31

/-! ## X-Plane SDK, as far as `2D.cpp` uses it -/

/-- `XPLMDataRef`: an opaque handle, `none` being `nullptr`. -/
abbrev XPLMDataRef := Option Nat

/-- `XPLMCameraPosition_t` -/
structure XPLMCameraPosition_t where
  x : F32
  y : F32
  z : F32
  pitch : F32
  heading : F32
  roll : F32
  zoom : F32

/-- `XPLMDrawInfo_t`, without its `structSize` -/
structure XPLMDrawInfo_t where
  x : F32
  y : F32
  z : F32
  pitch : F32
  heading : F32
  roll : F32

/-- What the simulator answers to the calls made by `2D.cpp`. -/
structure Host where
  /-- `XPLMFindDataRef` -/
  findDataRef : String → XPLMDataRef
  /-- `XPLMGetDatavf(dr, buf, offset, max)`: the buffer after the call -/
  getDatavf : XPLMDataRef → (Nat → F32) → Nat → Nat → (Nat → F32)
  /-- `XPLMGetDatai` -/
  getDatai : XPLMDataRef → Int
  /-- `XPLMGetDataf` -/
  getDataf : XPLMDataRef → F32
  /-- `XPLMReadCameraPosition` -/
  cameraPosition : XPLMCameraPosition_t

/-- Log levels of `LOG_MSG`. -/
inductive logLevelTy where
  | logDEBUG
  | logINFO
  | logWARN
  | logERR
  | logFATAL
  | logMSG
  deriving DecidableEq

/-- Calls with an effect outside of the library, in the order made. -/
inductive Effect where
  /-- `XPLMGetDatavf(dr, buf, offset, max)` -/
  | getDatavf (dr : XPLMDataRef) (offset max : Nat)
  /-- `XPLMGetDatai(dr)` -/
  | getDatai (dr : XPLMDataRef)
  /-- `XPLMGetDataf(dr)` -/
  | getDataf (dr : XPLMDataRef)
  /-- `XPLMReadCameraPosition` -/
  | readCameraPosition
  /-- `XPLMDrawString(c, x, y, text, NULL, xplmFont_Basic)` -/
  | drawString (c : F32 × F32 × F32 × F32) (x y : Int) (text : String)
  /-- `XPLMRegisterDrawCallback(CPLabelDrawing, xplm_Phase_Window, 0, nullptr)` -/
  | registerDrawCallback
  /-- `XPLMUnregisterDrawCallback(CPLabelDrawing, xplm_Phase_Window, 0, nullptr)` -/
  | unregisterDrawCallback
  /-- `LOG_MSG(lvl, ...)` with the formatted text -/
  | logMsg (lvl : logLevelTy) (text : String)
  deriving DecidableEq

/-- Is the effect a call of `XPLMDrawString`? -/
def Effect.isDrawString : Effect → Bool
  | .drawString _ _ _ _ => true
  | _ => false

/-- Is the effect the read of a dataref? -/
def Effect.isDataRefRead : Effect → Bool
  | .getDatavf _ _ _ => true
  | .getDatai _ => true
  | .getDataf _ => true
  | _ => false

/-! ## Library state -/

/-- The members of `XPMP2::Aircraft` read by `TwoDDrawLabels`; the accessors
`IsVisible()`, `GetCameraDist()`, `GetCameraBearing()` are the fields of the
same name. -/
structure Aircraft where
  IsVisible : Bool
  GetCameraDist : F32
  GetCameraBearing : F32
  drawInfo : XPLMDrawInfo_t
  colLabel : F32 × F32 × F32 × F32
  label : String

/-- The members of the library globals `glob` used by `2D.cpp`; `mapAc` maps
plane ids to aircraft, in key order. -/
structure GlobVars where
  bDrawLabels : Bool
  maxLabelDist : F32
  mapAc : List (Nat × Aircraft)

/-- The file statics of `2D.cpp`. -/
structure TwoDStatics where
  drMatrixWrld : XPLMDataRef
  drMatrixProj : XPLMDataRef
  drScreenWidth : XPLMDataRef
  drScreenHeight : XPLMDataRef
  drVisibility : XPLMDataRef
  drFieldOfView : XPLMDataRef
  gMatrixWrld : Nat → F32
  gMatrixProj : Nat → F32
  gScreenW : F32
  gScreenH : F32
  gFOV : F32

/-- What `2D.cpp` takes from elsewhere: the `float` arithmetic, and `headDiff`
of the library's utilities. -/
structure Deps where
  ar : FloatArith
  headDiff : F32 → F32 → F32

/-! ## Enabling and disabling labels -/

/-- `TwoDActivate`: registers the drawing callback. -/
def TwoDActivate : List Effect := [Effect.registerDrawCallback]

/-- `TwoDDeactivate`: unregisters the drawing callback. -/
def TwoDDeactivate : List Effect := [Effect.unregisterDrawCallback]

/-- `TwoDCleanup` -/
def TwoDCleanup : List Effect := TwoDDeactivate

/-- `DEBUG_ENABLE_AC_LABELS` with its argument filled in. -/
def DEBUG_ENABLE_AC_LABELS (arg : String) : String := "Aircraft labels " ++ arg

/-- `XPMPEnableAircraftLabels(_enable)`: the globals after the call and the
effects of the call. -/
def XPMPEnableAircraftLabels (_enable : Bool) (glob : GlobVars) : GlobVars × List Effect :=
  if glob.bDrawLabels != _enable then
    let log := [Effect.logMsg logLevelTy.logDEBUG
      (DEBUG_ENABLE_AC_LABELS (if _enable then "enabled" else "disabled"))]
    let glob1 := { glob with bDrawLabels := _enable }
    if glob1.bDrawLabels then
      (glob1, log ++ TwoDActivate)
    else
      (glob1, log ++ TwoDDeactivate)
  else
    (glob, [])

/-- `XPMPDisableAircraftLabels()` -/
def XPMPDisableAircraftLabels (glob : GlobVars) : GlobVars × List Effect :=
  XPMPEnableAircraftLabels false glob

/-- `XPMPDrawingAircraftLabels()` -/
def XPMPDrawingAircraftLabels (glob : GlobVars) : Bool := glob.bDrawLabels

/-- Two calls in a row: the second starts from the globals the first left,
and the effects are those of the first followed by those of the second. -/
def andThen (f g : GlobVars → GlobVars × List Effect) (glob : GlobVars) :
    GlobVars × List Effect :=
  ((g (f glob).1).1, (f glob).2 ++ (g (f glob).1).2)

/-! ## 2-D projection -/

/-- `mult_matrix_vec(dst, m, v)`: the four components of `dst`. -/
def mult_matrix_vec (ar : FloatArith) (m : Nat → F32) (v : Nat → F32) : Nat → F32 :=
  fun i =>
    ar.add (ar.add (ar.add (ar.mul (v 0) (m i)) (ar.mul (v 1) (m (4 + i))))
      (ar.mul (v 2) (m (8 + i)))) (ar.mul (v 3) (m (12 + i)))

/-- The vector `{ x, y, z, w }`. -/
def vec4 (x y z w : F32) : Nat → F32
  | 0 => x
  | 1 => y
  | 2 => z
  | _ => w

/-- `read_matrices`: the statics after the call and the reads made. -/
def read_matrices (ar : FloatArith) (host : Host) (st : TwoDStatics) :
    TwoDStatics × List Effect :=
  ({ st with
      gMatrixWrld := host.getDatavf st.drMatrixWrld st.gMatrixWrld 0 16
      gMatrixProj := host.getDatavf st.drMatrixProj st.gMatrixProj 0 16
      gScreenW := ar.ofInt (host.getDatai st.drScreenWidth)
      gScreenH := ar.ofInt (host.getDatai st.drScreenHeight)
      gFOV := host.getDataf st.drFieldOfView },
   [Effect.getDatavf st.drMatrixWrld 0 16,
    Effect.getDatavf st.drMatrixProj 0 16,
    Effect.getDatai st.drScreenWidth,
    Effect.getDatai st.drScreenHeight,
    Effect.getDataf st.drFieldOfView])

/-- `ConvertTo2d(x, y, z, out_x, out_y)`: the pair `(out_x, out_y)`. -/
def ConvertTo2d (ar : FloatArith) (st : TwoDStatics) (x y z : F32) : Int × Int :=
  let afPos := vec4 x y z (F32.fin 1)
  let afEye := mult_matrix_vec ar st.gMatrixWrld afPos
  let afNdc := mult_matrix_vec ar st.gMatrixProj afEye
  let w := ar.div (F32.fin 1) (afNdc 3)
  let ndc0 := ar.mul (afNdc 0) w
  let ndc1 := ar.mul (afNdc 1) w
  (castInt (ar.lround (ar.mul st.gScreenW (ar.add (ar.mul ndc0 (F32.fin (1 / 2))) (F32.fin (1 / 2))))),
   castInt (ar.lround (ar.mul st.gScreenH (ar.add (ar.mul ndc1 (F32.fin (1 / 2))) (F32.fin (1 / 2))))))

/-! ## Drawing the labels -/

/-- The `float` constant `0.6f`, which is 5033165 / 2^23. -/
def gray06 : F32 := F32.fin (5033165 / 8388608)

/-- The colour `gray` of `TwoDDrawLabels`. -/
def gray : F32 × F32 × F32 × F32 := (gray06, gray06, gray06, F32.fin 1)

/-- The fading factor `rat` of `TwoDDrawLabels`. -/
def fadeRat (ar : FloatArith) (dist maxLabelDist : F32) : F32 :=
  if F32.lt dist (ar.div maxLabelDist (F32.fin 2)) then F32.fin 0
  else ar.div (ar.sub dist (ar.div maxLabelDist (F32.fin 2))) (ar.div maxLabelDist (F32.fin 2))

/-- The text colour `c` of `TwoDDrawLabels`. -/
def labelColor (ar : FloatArith) (rat : F32) (col : F32 × F32 × F32 × F32) :
    F32 × F32 × F32 × F32 :=
  let mix := fun (a g : F32) => ar.add (ar.mul (ar.sub (F32.fin 1) rat) a) (ar.mul rat g)
  (mix col.1 gray.1, mix col.2.1 gray.2.1, mix col.2.2.1 gray.2.2.1, mix col.2.2.2 gray.2.2.2)

/-- The maximum distance for label drawing, as `TwoDDrawLabels` determines
it. -/
def maxLabelDistOf (d : Deps) (host : Host) (st : TwoDStatics) (glob : GlobVars) : F32 :=
  d.ar.mul
    (F32.min glob.maxLabelDist
      (if st.drVisibility.isSome then host.getDataf st.drVisibility else glob.maxLabelDist))
    host.cameraPosition.zoom

/-- The reads `TwoDDrawLabels` makes to determine the maximum distance. -/
def maxLabelDistReads (st : TwoDStatics) : List Effect :=
  Effect.readCameraPosition ::
    (if st.drVisibility.isSome then [Effect.getDataf st.drVisibility] else [])

/-- One pass of the loop of `TwoDDrawLabels`, for the aircraft `ac`. -/
def drawLabelOf (d : Deps) (st : TwoDStatics) (posCamera : XPLMCameraPosition_t)
    (maxLabelDist : F32) (ac : Aircraft) : List Effect :=
  if !ac.IsVisible then []
  else if F32.gt ac.GetCameraDist maxLabelDist then []
  else if F32.gt (F32.abs (d.headDiff ac.GetCameraBearing posCamera.heading)) (F32.fin 90) then []
  else
    let xy := ConvertTo2d d.ar st ac.drawInfo.x (d.ar.sub ac.drawInfo.y (F32.fin 10)) ac.drawInfo.z
    let rat := fadeRat d.ar ac.GetCameraDist maxLabelDist
    let c := labelColor d.ar rat ac.colLabel
    [Effect.drawString c xy.1 xy.2 ac.label]

/-- `TwoDDrawLabels()`: the statics after the call and the effects of the
call. -/
def TwoDDrawLabels (d : Deps) (host : Host) (st : TwoDStatics) (glob : GlobVars) :
    TwoDStatics × List Effect :=
  if !glob.bDrawLabels then (st, [])
  else
    let rm := read_matrices d.ar host st
    let posCamera := host.cameraPosition
    let maxLabelDist := maxLabelDistOf d host rm.1 glob
    (rm.1, rm.2 ++ maxLabelDistReads rm.1 ++
      glob.mapAc.flatMap (fun p => drawLabelOf d rm.1 posCamera maxLabelDist p.2))

/-- `CPLabelDrawing`: the drawing callback; returns 1. -/
def CPLabelDrawing (d : Deps) (host : Host) (st : TwoDStatics) (glob : GlobVars) :
    (TwoDStatics × List Effect) × Int :=
  (TwoDDrawLabels d host st glob, 1)

/-- `TwoDInit()`: looks up the datarefs, and registers the drawing callback
if labels are to be drawn. -/
def TwoDInit (host : Host) (st : TwoDStatics) (glob : GlobVars) : TwoDStatics × List Effect :=
  let vis := host.findDataRef "sim/graphics/view/visibility_effective_m"
  ({ st with
      drMatrixWrld := host.findDataRef "sim/graphics/view/world_matrix"
      drMatrixProj := host.findDataRef "sim/graphics/view/projection_matrix_3d"
      drScreenWidth := host.findDataRef "sim/graphics/view/window_width"
      drScreenHeight := host.findDataRef "sim/graphics/view/window_height"
      drVisibility :=
        if vis.isSome then vis else host.findDataRef "sim/weather/visibility_effective_m"
      drFieldOfView := host.findDataRef "sim/graphics/view/field_of_view_deg" },
   if glob.bDrawLabels then TwoDActivate else [])

/-- The condition for a label stated with `<=`: labels are switched on, the
aircraft is visible, its camera distance is `<=` the maximum label distance,
and the absolute heading difference is `<=` 90. -/
def labelDueLe (d : Deps) (host : Host) (st : TwoDStatics) (glob : GlobVars)
    (ac : Aircraft) : Bool :=
  glob.bDrawLabels && ac.IsVisible &&
    F32.le ac.GetCameraDist (maxLabelDistOf d host st glob) &&
    F32.le (F32.abs (d.headDiff ac.GetCameraBearing host.cameraPosition.heading)) (F32.fin 90)

/-- The same condition, with "not greater than" in place of `<=`. -/
def labelDueNotGt (d : Deps) (host : Host) (st : TwoDStatics) (glob : GlobVars)
    (ac : Aircraft) : Bool :=
  glob.bDrawLabels && ac.IsVisible &&
    !F32.gt ac.GetCameraDist (maxLabelDistOf d host st glob) &&
    !F32.gt (F32.abs (d.headDiff ac.GetCameraBearing host.cameraPosition.heading)) (F32.fin 90)

/-- The labels drawn by one call of `TwoDDrawLabels` for the aircraft `ac`:
the `XPLMDrawString` calls of its pass through the loop. -/
def labelsDrawnFor (d : Deps) (host : Host) (st : TwoDStatics) (glob : GlobVars)
    (ac : Aircraft) : List Effect :=
  if glob.bDrawLabels then
    (drawLabelOf d (read_matrices d.ar host st).1 host.cameraPosition
      (maxLabelDistOf d host (read_matrices d.ar host st).1 glob) ac).filter Effect.isDrawString
  else []

/-! ## The remote client: `XPMP2-Remote.h`

The header declares the globals of the remote client. The types of two of
its members (`XPMP2::RemoteMsgSettingsTy`, `mapSenderTy`) and the functions
working on them (merging the senders' settings, dropping senders that went
silent) are declared and defined in files outside of the sources at hand;
they are modelled from the specification. -/

namespace Remote

/-- `REMOTE_CLIENT_NAME` -/
def REMOTE_CLIENT_NAME : String := "XPMP2 Remote Client"

/-- `REMOTE_CLIENT_LOG` -/
def REMOTE_CLIENT_LOG : String := "XPMP2_RC"

/-- `REMOTE_CLIENT_LOG2` -/
def REMOTE_CLIENT_LOG2 : String := "RC"

/-- Modelled from the spec: `PeerIdentity`, the opaque key identifying a
sender; its type is not part of the sources at hand. -/
abbrev PeerIdentity := Nat

/-- Modelled from the spec: `AircraftId`; its type is not part of the sources
at hand. -/
abbrev AircraftId := Nat

/-- Modelled from the spec: `XPMP2::RemoteMsgSettingsTy` (declared in
`XPMPRemote.h`, which is not part of the sources at hand), the spec's
`SettingsSnapshot` and `EffectiveSettings`: a configuration value of numeric
thresholds and flags, here the maximum draw distance for labels (in metres)
and the default for label visibility. -/
structure RemoteMsgSettingsTy where
  maxLabelDist : Nat
  bDrawLabels : Bool
  deriving DecidableEq

/-- Modelled from the spec: `AircraftState` (its type is not part of the
sources at hand), the state of one aircraft, attributed to the one sender
owning it. -/
structure AircraftState where
  owner : PeerIdentity
  id : AircraftId
  x : F32
  y : F32
  z : F32
  label : String
  deriving DecidableEq

/-- Modelled from the spec: `PeerRecord`, the entry of one sender in
`mapSenderTy` (declared in `Client.h`, which is not part of the sources at
hand). -/
structure PeerRecord where
  identity : PeerIdentity
  lastSeen : F32
  declaredSettings : RemoteMsgSettingsTy
  knownAircraftIds : List AircraftId
  deriving DecidableEq

/-- Modelled from the spec: `mapSenderTy` (declared in `Client.h`, which is
not part of the sources at hand), the map from sender identity to the
sender's record, as the list of its entries. -/
abbrev mapSenderTy := List PeerRecord

/-- `struct XPMP2RCGlobals`: all global variables of the remote client. -/
structure XPMP2RCGlobals where
  /-- Config values reconciled from sending plugins -/
  mergedS : RemoteMsgSettingsTy
  /-- The global map of all sending plugins ever heard of -/
  gmapSender : mapSenderTy
  /-- Latest timestamp read from network_time_sec -/
  now : F32
  /-- The id of X-Plane's thread -/
  xpThread : Nat

/-- `XPMP2RCGlobals::IsXPThread()`, for the calling thread `self`. -/
def XPMP2RCGlobals.IsXPThread (g : XPMP2RCGlobals) (self : Nat) : Bool := self == g.xpThread

/-- Modelled from the spec: the state of the Peer Registry (not part of the
sources at hand): the globals of the header, with the sender map, together
with the live aircraft set. -/
structure ClientState where
  rcGlob : XPMP2RCGlobals
  aircraft : List AircraftState

/-- The sender map is a map: it has one record per identity. -/
def ClientState.WellFormed (s : ClientState) : Prop :=
  (s.rcGlob.gmapSender.map PeerRecord.identity).Nodup

/-- Modelled from the spec: the per-field merge policy of the Settings Merger
(not part of the sources at hand) for two settings: numeric thresholds take
the maximum, flags the logical OR. -/
def mergeTwo (a b : RemoteMsgSettingsTy) : RemoteMsgSettingsTy :=
  { maxLabelDist := max a.maxLabelDist b.maxLabelDist
    bDrawLabels := a.bDrawLabels || b.bDrawLabels }

/-- Modelled from the spec: `merge` of the Settings Merger (not part of the
sources at hand): the settings in force for the settings declared by the live
senders, and the default `dflt` for no sender at all. -/
def merge (dflt : RemoteMsgSettingsTy) :
    List (PeerIdentity × RemoteMsgSettingsTy) → RemoteMsgSettingsTy
  | [] => dflt
  | p :: ps => ps.foldl (fun acc q => mergeTwo acc q.2) p.2

/-- The settings declared by the senders of the map. -/
def declared (m : mapSenderTy) : List (PeerIdentity × RemoteMsgSettingsTy) :=
  m.map (fun p => (p.identity, p.declaredSettings))

/-- Modelled from the spec: the Synchronization Core (not part of the sources
at hand) recomputing `mergedS` from the senders of `gmapSender`. -/
def remerge (dflt : RemoteMsgSettingsTy) (g : XPMP2RCGlobals) : XPMP2RCGlobals :=
  { g with mergedS := merge dflt (declared g.gmapSender) }

/-- Modelled from the spec: the staleness test `now - lastSeen > staleTimeout`
of the Peer Registry (not part of the sources at hand), on `float` as `now`
is. -/
def isStale (ar : FloatArith) (staleTimeout now : F32) (p : PeerRecord) : Bool :=
  F32.gt (ar.sub now p.lastSeen) staleTimeout

/-- Modelled from the spec: `RegistryDelta` (not part of the sources at hand):
did the live senders, or any declared settings, change? -/
structure RegistryDelta where
  membershipChanged : Bool
  settingsChanged : Bool
  deriving DecidableEq

/-- Modelled from the spec: `sweep(now)` of the Peer Registry (not part of the
sources at hand): removes every record with `now - lastSeen > staleTimeout`
and, in the same step, every aircraft owned by a removed sender. -/
def sweep (ar : FloatArith) (staleTimeout now : F32) (s : ClientState) :
    ClientState × RegistryDelta :=
  let gone := s.rcGlob.gmapSender.filter (fun p => isStale ar staleTimeout now p)
  let kept := s.rcGlob.gmapSender.filter (fun p => !isStale ar staleTimeout now p)
  ({ rcGlob := { s.rcGlob with gmapSender := kept, now := now }
     aircraft := s.aircraft.filter (fun a => !gone.any (fun p => p.identity == a.owner)) },
   { membershipChanged := !gone.isEmpty, settingsChanged := false })

/-- Modelled from the spec: the timer of the Synchronization Core (not part of
the sources at hand): sweep, and recompute the merged settings if the sweep
changed anything. -/
def onTimer (ar : FloatArith) (dflt : RemoteMsgSettingsTy) (staleTimeout now : F32)
    (s : ClientState) : ClientState :=
  let r := sweep ar staleTimeout now s
  if r.2.membershipChanged || r.2.settingsChanged then
    { r.1 with rcGlob := remerge dflt r.1.rcGlob }
  else r.1

/-- Modelled from the spec: `getLiveAircraft()` (not part of the sources at
hand). -/
def getLiveAircraft (s : ClientState) : List AircraftState := s.aircraft

/-- Modelled from the spec: `getEffectiveSettings()` (not part of the sources
at hand). -/
def getEffectiveSettings (s : ClientState) : RemoteMsgSettingsTy := s.rcGlob.mergedS

end Remote

/-! ## Concrete inputs

Inputs at which the definitions above are evaluated further down. -/

namespace Sample

/-- Arithmetic without rounding on finite operands; not-a-number as soon as
an operand is not finite, and for a division by zero. -/
def exactOp (f : ℚ → ℚ → ℚ) : F32 → F32 → F32
  | F32.fin a, F32.fin b => F32.fin (f a b)
  | _, _ => F32.nan

/-- Division without rounding on finite operands. -/
def exactDiv : F32 → F32 → F32
  | F32.fin a, F32.fin b => if b = 0 then F32.nan else F32.fin (a / b)
  | _, _ => F32.nan

/-- Rounding to the nearest integer, halves away from zero. -/
def exactLround : F32 → Int
  | F32.fin q => if 0 ≤ q then Rat.floor (q + 1 / 2) else -Rat.floor (-q + 1 / 2)
  | _ => 0

/-- A `float` arithmetic that is exact on the finite values it is used on. -/
def exactArith : FloatArith where
  add := exactOp (fun a b => a + b)
  sub := exactOp (fun a b => a - b)
  mul := exactOp (fun a b => a * b)
  div := exactDiv
  ofInt := fun i => F32.fin i
  lround := exactLround

/-- The difference of two headings, not-a-number if one of them is; finite
headings differ by their plain difference here (the values used are less
than 180 degrees apart). -/
def headDiffPlain : F32 → F32 → F32 := exactOp (fun head1 head2 => head2 - head1)

/-- The dependencies used for evaluation. -/
def deps : Deps := { ar := exactArith, headDiff := headDiffPlain }

/-- A camera at the origin looking north, not zoomed. -/
def camera : XPLMCameraPosition_t :=
  { x := F32.fin 0, y := F32.fin 0, z := F32.fin 0, pitch := F32.fin 0,
    heading := F32.fin 0, roll := F32.fin 0, zoom := F32.fin 1 }

/-- The identity matrix. -/
def identity4 : Nat → F32 :=
  fun i => if i = 0 ∨ i = 5 ∨ i = 10 ∨ i = 15 then F32.fin 1 else F32.fin 0

/-- A simulator with a 1000 by 800 window and 20 km of visibility. -/
def host : Host where
  findDataRef := fun _ => some 1
  getDatavf := fun _ _ _ _ => identity4
  getDatai := fun dr => if dr = some 3 then 1000 else 800
  getDataf := fun dr => if dr = some 5 then F32.fin 20000 else F32.fin 60
  cameraPosition := camera

/-- The statics with all datarefs found. -/
def statics : TwoDStatics :=
  { drMatrixWrld := some 1, drMatrixProj := some 2, drScreenWidth := some 3,
    drScreenHeight := some 4, drVisibility := some 5, drFieldOfView := some 6,
    gMatrixWrld := identity4, gMatrixProj := identity4,
    gScreenW := F32.fin 0, gScreenH := F32.fin 0, gFOV := F32.fin 0 }

/-- White. -/
def white : F32 × F32 × F32 × F32 := (F32.fin 1, F32.fin 1, F32.fin 1, F32.fin 1)

/-- A visible aircraft 1 km ahead of the camera. -/
def acNear : Aircraft :=
  { IsVisible := true, GetCameraDist := F32.fin 1000, GetCameraBearing := F32.fin 10,
    drawInfo := { x := F32.fin 0, y := F32.fin 100, z := F32.fin (-1000),
                  pitch := F32.fin 0, heading := F32.fin 0, roll := F32.fin 0 },
    colLabel := white, label := "NEAR" }

/-- A visible aircraft whose camera distance is not-a-number. -/
def acNaN : Aircraft :=
  { IsVisible := true, GetCameraDist := F32.nan, GetCameraBearing := F32.fin 10,
    drawInfo := { x := F32.fin 0, y := F32.fin 100, z := F32.fin (-1000),
                  pitch := F32.fin 0, heading := F32.fin 0, roll := F32.fin 0 },
    colLabel := white, label := "NAN" }

/-- Globals with labels off and one aircraft. -/
def globOff : GlobVars :=
  { bDrawLabels := false, maxLabelDist := F32.fin 5000, mapAc := [(1, acNear)] }

/-- Globals with labels on and one aircraft. -/
def globOn : GlobVars :=
  { bDrawLabels := true, maxLabelDist := F32.fin 5000, mapAc := [(1, acNear)] }

/-- Globals with labels on and the one aircraft whose camera distance is
not-a-number. -/
def globNaN : GlobVars :=
  { bDrawLabels := true, maxLabelDist := F32.fin 5000, mapAc := [(1, acNaN)] }

/-- The default settings used for evaluation. -/
def dflt : Remote.RemoteMsgSettingsTy := { maxLabelDist := 5000, bDrawLabels := false }

/-- Sender A: declares 50 km, last heard of at second 1, owns aircraft 11. -/
def senderA : Remote.PeerRecord :=
  { identity := 1, lastSeen := F32.fin 1,
    declaredSettings := { maxLabelDist := 50000, bDrawLabels := false },
    knownAircraftIds := [11] }

/-- Sender B: declares 80 km, last heard of at second 31, owns aircraft 21. -/
def senderB : Remote.PeerRecord :=
  { identity := 2, lastSeen := F32.fin 31,
    declaredSettings := { maxLabelDist := 80000, bDrawLabels := true },
    knownAircraftIds := [21] }

/-- The globals of the remote client with the senders A and B. -/
def rcGlob : Remote.XPMP2RCGlobals :=
  { mergedS := dflt, gmapSender := [senderA, senderB], now := F32.fin 31, xpThread := 0 }

/-- The remote client with the senders A and B and one aircraft of each. -/
def client : Remote.ClientState :=
  { rcGlob := rcGlob,
    aircraft :=
      [{ owner := 1, id := 11, x := F32.fin 0, y := F32.fin 0, z := F32.fin 0, label := "A1" },
       { owner := 2, id := 21, x := F32.fin 0, y := F32.fin 0, z := F32.fin 0, label := "B1" }] }

end Sample

/-! ## Properties of enabling and disabling labels -/

/-- C1: whatever the globals were, `XPMPDrawingAircraftLabels()` right after
`XPMPEnableAircraftLabels(e)` returns `e`, and right after
`XPMPDisableAircraftLabels()` returns `false`. -/
theorem XPMPDrawingAircraftLabels_returns_request (e : Bool) (glob : GlobVars) :
    XPMPDrawingAircraftLabels (XPMPEnableAircraftLabels e glob).1 = e ∧
    XPMPDrawingAircraftLabels (XPMPDisableAircraftLabels glob).1 = false := by
  have key : ∀ b : Bool, XPMPDrawingAircraftLabels (XPMPEnableAircraftLabels b glob).1 = b := by
    intro b
    unfold XPMPDrawingAircraftLabels XPMPEnableAircraftLabels
    cases hb : glob.bDrawLabels <;> cases b <;> simp [hb]
  exact ⟨key e, key false⟩

/-- C2: if `glob.bDrawLabels` already equals `e`, then
`XPMPEnableAircraftLabels(e)` has no effect at all (no log message, no
registration, no unregistration) and leaves the globals as they are; and in
every state, calling it twice in a row gives the same globals and the same
effects as calling it once. -/
theorem XPMPEnableAircraftLabels_only_on_change (e : Bool) (glob : GlobVars) :
    (glob.bDrawLabels = e → XPMPEnableAircraftLabels e glob = (glob, [])) ∧
    andThen (XPMPEnableAircraftLabels e) (XPMPEnableAircraftLabels e) glob =
      XPMPEnableAircraftLabels e glob := by
  constructor
  · intro h
    simp [XPMPEnableAircraftLabels, h]
  · unfold andThen XPMPEnableAircraftLabels
    cases hb : glob.bDrawLabels <;> cases e <;> simp [hb]

/-- C2 at the globals `Sample.globOff`, where labels are off, and the request
to switch them off. -/
theorem XPMPEnableAircraftLabels_only_on_change_witness :
    XPMPEnableAircraftLabels false Sample.globOff = (Sample.globOff, []) ∧
    andThen (XPMPEnableAircraftLabels false) (XPMPEnableAircraftLabels false) Sample.globOff =
      XPMPEnableAircraftLabels false Sample.globOff :=
  ⟨(XPMPEnableAircraftLabels_only_on_change false Sample.globOff).1 rfl,
   (XPMPEnableAircraftLabels_only_on_change false Sample.globOff).2⟩

/-! ## Comparisons of `float` -/

/-- Nothing is less than not-a-number. -/
theorem F32.lt_nan_right (a : F32) : F32.lt a F32.nan = false := by
  cases a <;> rfl

/-- Not-a-number is greater than nothing. -/
theorem F32.gt_nan_left (a : F32) : F32.gt F32.nan a = false := F32.lt_nan_right a

/-- Without not-a-number, `a <= b` is the same as not `a > b`. -/
theorem F32.le_eq_not_gt (a b : F32) (ha : a.isNaN = false) (hb : b.isNaN = false) :
    F32.le a b = !F32.gt a b := by
  cases a <;> cases b <;> simp_all [F32.le, F32.gt, F32.lt, F32.isNaN]
  rename_i a b
  by_cases h : b < a
  · simp [h]
  · simp [h, not_lt.mp h]

/-! ## Properties of drawing the labels -/

/-- Reading the matrices leaves the maximum label distance as it is. -/
theorem maxLabelDistOf_read_matrices (d : Deps) (host : Host) (st : TwoDStatics)
    (glob : GlobVars) :
    maxLabelDistOf d host (read_matrices d.ar host st).1 glob = maxLabelDistOf d host st glob :=
  rfl

/-- One pass of the loop draws the label of the aircraft, or nothing. -/
theorem drawLabelOf_eq (d : Deps) (st : TwoDStatics) (cam : XPLMCameraPosition_t)
    (m : F32) (ac : Aircraft) :
    drawLabelOf d st cam m ac =
      if ac.IsVisible && !F32.gt ac.GetCameraDist m &&
          !F32.gt (F32.abs (d.headDiff ac.GetCameraBearing cam.heading)) (F32.fin 90) then
        [Effect.drawString (labelColor d.ar (fadeRat d.ar ac.GetCameraDist m) ac.colLabel)
          (ConvertTo2d d.ar st ac.drawInfo.x (d.ar.sub ac.drawInfo.y (F32.fin 10)) ac.drawInfo.z).1
          (ConvertTo2d d.ar st ac.drawInfo.x (d.ar.sub ac.drawInfo.y (F32.fin 10)) ac.drawInfo.z).2
          ac.label]
      else [] := by
  unfold drawLabelOf
  cases ac.IsVisible <;> cases F32.gt ac.GetCameraDist m <;>
    cases F32.gt (F32.abs (d.headDiff ac.GetCameraBearing cam.heading)) (F32.fin 90) <;> simp

/-- One pass of the loop has no effect but drawing. -/
theorem drawLabelOf_filter (d : Deps) (st : TwoDStatics) (cam : XPLMCameraPosition_t)
    (m : F32) (ac : Aircraft) :
    (drawLabelOf d st cam m ac).filter Effect.isDrawString = drawLabelOf d st cam m ac := by
  rw [drawLabelOf_eq]
  split <;> simp [Effect.isDrawString]

/-- Nothing is drawn before the loop. -/
theorem prelude_filter (d : Deps) (host : Host) (st : TwoDStatics) :
    ((read_matrices d.ar host st).2 ++ maxLabelDistReads (read_matrices d.ar host st).1).filter
      Effect.isDrawString = [] := by
  simp only [read_matrices, maxLabelDistReads]
  cases st.drVisibility <;> simp [Effect.isDrawString]

/-- The labels drawn by `TwoDDrawLabels` are those of the passes of its loop,
in the order of the map. -/
theorem TwoDDrawLabels_draws (d : Deps) (host : Host) (st : TwoDStatics) (glob : GlobVars) :
    (TwoDDrawLabels d host st glob).2.filter Effect.isDrawString =
      glob.mapAc.flatMap (fun p => labelsDrawnFor d host st glob p.2) := by
  unfold TwoDDrawLabels labelsDrawnFor
  cases hb : glob.bDrawLabels
  · simp
  · simp only [Bool.not_true, Bool.false_eq_true, if_false, if_true, List.filter_append]
    rw [← List.filter_append, prelude_filter, List.nil_append, List.filter_flatMap]

/-- The labels drawn for one aircraft: its label, once, if the aircraft is
due in the sense of `labelDueNotGt`, and nothing otherwise. -/
theorem labelsDrawnFor_eq (d : Deps) (host : Host) (st : TwoDStatics) (glob : GlobVars)
    (ac : Aircraft) :
    labelsDrawnFor d host st glob ac =
      if labelDueNotGt d host st glob ac then
        [Effect.drawString
          (labelColor d.ar (fadeRat d.ar ac.GetCameraDist (maxLabelDistOf d host st glob))
            ac.colLabel)
          (ConvertTo2d d.ar (read_matrices d.ar host st).1 ac.drawInfo.x
            (d.ar.sub ac.drawInfo.y (F32.fin 10)) ac.drawInfo.z).1
          (ConvertTo2d d.ar (read_matrices d.ar host st).1 ac.drawInfo.x
            (d.ar.sub ac.drawInfo.y (F32.fin 10)) ac.drawInfo.z).2
          ac.label]
      else [] := by
  unfold labelsDrawnFor labelDueNotGt
  rw [drawLabelOf_filter, drawLabelOf_eq, maxLabelDistOf_read_matrices]
  cases glob.bDrawLabels <;> simp

/-- What `TwoDDrawLabels` does, for every `float` arithmetic and every state:
with labels switched off it has no effect at all; otherwise it draws, for
each aircraft of the map, one label if the aircraft is visible, its camera
distance is not greater than the maximum label distance and the absolute
heading difference is not greater than 90, and none otherwise. As long as
none of the values compared is not-a-number, "not greater than" is `<=`. -/
theorem TwoDDrawLabels_label_iff_due (d : Deps) (host : Host) (st : TwoDStatics)
    (glob : GlobVars) :
    (glob.bDrawLabels = false → TwoDDrawLabels d host st glob = (st, [])) ∧
    (TwoDDrawLabels d host st glob).2.filter Effect.isDrawString =
      glob.mapAc.flatMap (fun p => labelsDrawnFor d host st glob p.2) ∧
    (∀ ac : Aircraft,
      ((labelsDrawnFor d host st glob ac).length = 1 ↔ labelDueNotGt d host st glob ac = true) ∧
      (labelDueNotGt d host st glob ac = false → labelsDrawnFor d host st glob ac = []) ∧
      (∀ e ∈ labelsDrawnFor d host st glob ac, ∃ c x y, e = Effect.drawString c x y ac.label) ∧
      (ac.GetCameraDist.isNaN = false → (maxLabelDistOf d host st glob).isNaN = false →
        (F32.abs (d.headDiff ac.GetCameraBearing host.cameraPosition.heading)).isNaN = false →
        labelDueNotGt d host st glob ac = labelDueLe d host st glob ac)) := by
  refine ⟨?_, TwoDDrawLabels_draws d host st glob, ?_⟩
  · intro h
    simp [TwoDDrawLabels, h]
  · intro ac
    refine ⟨?_, ?_, ?_, ?_⟩
    · rw [labelsDrawnFor_eq]
      cases labelDueNotGt d host st glob ac <;> simp
    · intro h
      rw [labelsDrawnFor_eq, h]
      simp
    · intro e he
      rw [labelsDrawnFor_eq] at he
      cases h : labelDueNotGt d host st glob ac
      · simp [h] at he
      · simp [h] at he
        exact ⟨_, _, _, he⟩
    · intro h1 h2 h3
      unfold labelDueNotGt labelDueLe
      rw [F32.le_eq_not_gt _ _ h1 h2, F32.le_eq_not_gt _ (F32.fin 90) h3 rfl]

/-- The sample aircraft are 10 degrees off the camera heading: not more than
90. -/
theorem sample_headDiff_not_gt :
    F32.gt (F32.abs (Sample.deps.headDiff (F32.fin 10) Sample.host.cameraPosition.heading))
      (F32.fin 90) = false := by
  simp [Sample.deps, Sample.headDiffPlain, Sample.exactOp, Sample.host, Sample.camera,
    F32.abs, F32.gt, F32.lt]
  norm_num

/-- The maximum label distance of the sample is `min(5000, 20000) * 1`. -/
theorem sample_maxLabelDist :
    maxLabelDistOf Sample.deps Sample.host Sample.statics Sample.globOn = F32.fin 5000 := by
  norm_num [maxLabelDistOf, Sample.deps, Sample.host, Sample.statics, Sample.globOn,
    Sample.exactArith, Sample.exactOp, F32.min, F32.lt, Sample.camera]

/-- The aircraft 1 km ahead is due for a label. -/
theorem sample_labelDueNotGt_near :
    labelDueNotGt Sample.deps Sample.host Sample.statics Sample.globOn Sample.acNear = true := by
  have h := sample_headDiff_not_gt
  unfold labelDueNotGt
  rw [sample_maxLabelDist]
  simp only [Sample.acNear] at h ⊢
  rw [h]
  norm_num [Sample.globOn, F32.gt, F32.lt]

/-- The aircraft with the camera distance not-a-number passes the checks of
the loop. -/
theorem sample_labelDueNotGt_nan :
    labelDueNotGt Sample.deps Sample.host Sample.statics Sample.globNaN Sample.acNaN = true := by
  have h := sample_headDiff_not_gt
  unfold labelDueNotGt
  simp only [Sample.acNaN] at h ⊢
  rw [h, F32.gt_nan_left]
  simp [Sample.globNaN]

/-- The characterisation at the sample: the aircraft 1 km ahead gets its one
label, and with labels switched off the call has no effect. -/
theorem TwoDDrawLabels_label_iff_due_sample :
    (labelsDrawnFor Sample.deps Sample.host Sample.statics Sample.globOn Sample.acNear).length = 1 ∧
    TwoDDrawLabels Sample.deps Sample.host Sample.statics Sample.globOff = (Sample.statics, []) :=
  ⟨((TwoDDrawLabels_label_iff_due Sample.deps Sample.host Sample.statics Sample.globOn).2.2
      Sample.acNear).1.mpr sample_labelDueNotGt_near,
   (TwoDDrawLabels_label_iff_due Sample.deps Sample.host Sample.statics Sample.globOff).1 rfl⟩

/-- C5, at an aircraft whose camera distance is not-a-number: with labels
switched on and this one visible aircraft in the map, `TwoDDrawLabels` draws
the label of the aircraft (one call of `XPLMDrawString`), although the camera
distance is not `<=` the maximum label distance, so that the condition of the
claim does not hold. -/
theorem TwoDDrawLabels_draws_label_at_nan_dist :
    Sample.globNaN.bDrawLabels = true ∧
    Sample.globNaN.mapAc = [(1, Sample.acNaN)] ∧
    Sample.acNaN.GetCameraDist = F32.nan ∧
    (∃ c x y, (TwoDDrawLabels Sample.deps Sample.host Sample.statics Sample.globNaN).2.filter
      Effect.isDrawString = [Effect.drawString c x y "NAN"]) ∧
    F32.le Sample.acNaN.GetCameraDist
      (maxLabelDistOf Sample.deps Sample.host Sample.statics Sample.globNaN) = false ∧
    labelDueLe Sample.deps Sample.host Sample.statics Sample.globNaN Sample.acNaN = false := by
  refine ⟨rfl, rfl, rfl, ?_, rfl, ?_⟩
  · rw [TwoDDrawLabels_draws]
    have hm : Sample.globNaN.mapAc = [(1, Sample.acNaN)] := rfl
    rw [hm]
    simp only [List.flatMap_cons, List.flatMap_nil, List.append_nil]
    rw [labelsDrawnFor_eq, sample_labelDueNotGt_nan]
    exact ⟨_, _, _, rfl⟩
  · unfold labelDueLe
    have : F32.le Sample.acNaN.GetCameraDist
      (maxLabelDistOf Sample.deps Sample.host Sample.statics Sample.globNaN) = false := rfl
    rw [this]
    simp

/-! ## Properties of the remote client -/

namespace Remote

/-- Folding the merge over senders: the maximum of the thresholds and the OR
of the flags. -/
theorem foldl_mergeTwo_eq (ps : List (PeerIdentity × RemoteMsgSettingsTy))
    (acc : RemoteMsgSettingsTy) :
    ps.foldl (fun acc q => mergeTwo acc q.2) acc =
      { maxLabelDist := max acc.maxLabelDist ((ps.map (fun q => q.2.maxLabelDist)).foldr max 0)
        bDrawLabels := acc.bDrawLabels || ps.any (fun q => q.2.bDrawLabels) } := by
  induction ps generalizing acc with
  | nil => simp
  | cons q qs ih =>
    rw [List.foldl_cons, ih]
    simp [mergeTwo, max_assoc, Bool.or_assoc]

/-- The merged settings of at least one sender, field by field. -/
theorem merge_cons_eq (dflt : RemoteMsgSettingsTy) (p : PeerIdentity × RemoteMsgSettingsTy)
    (ps : List (PeerIdentity × RemoteMsgSettingsTy)) :
    merge dflt (p :: ps) =
      { maxLabelDist := ((p :: ps).map (fun q => q.2.maxLabelDist)).foldr max 0
        bDrawLabels := (p :: ps).any (fun q => q.2.bDrawLabels) } := by
  simp [merge, foldl_mergeTwo_eq]

/-- The maximum of a list is at least each of its elements. -/
theorem foldr_max_ge (l : List Nat) (x : Nat) (hx : x ∈ l) : x ≤ l.foldr max 0 := by
  induction l with
  | nil => simp at hx
  | cons y ys ih =>
    rcases List.mem_cons.mp hx with h | h
    · subst h; simp
    · exact le_trans (ih h) (by simp)

/-- The maximum of a list with an element is one of its elements. -/
theorem foldr_max_mem (l : List Nat) (hne : l ≠ []) : l.foldr max 0 ∈ l := by
  induction l with
  | nil => exact absurd rfl hne
  | cons y ys ih =>
    by_cases hys : ys = []
    · subst hys; simp
    · rcases max_choice y (ys.foldr max 0) with h | h
      · simp [h]
      · simp only [List.foldr_cons, h]
        exact List.mem_cons_of_mem _ (ih hys)

/-- The merge does not depend on the order of the senders. -/
theorem merge_perm (dflt : RemoteMsgSettingsTy)
    (l₁ l₂ : List (PeerIdentity × RemoteMsgSettingsTy)) (h : l₁.Perm l₂) :
    merge dflt l₁ = merge dflt l₂ := by
  cases l₁ with
  | nil => rw [← h.nil_eq]
  | cons p ps =>
    cases l₂ with
    | nil => exact absurd h.eq_nil (by simp)
    | cons q qs =>
      rw [merge_cons_eq, merge_cons_eq]
      congr 1
      · exact (h.map _).foldr_eq' (fun a _ b _ c => by simp [max_left_comm]) 0
      · rw [Bool.eq_iff_iff]
        simp only [List.any_eq_true]
        exact ⟨fun ⟨x, hx, hb⟩ => ⟨x, h.mem_iff.mp hx, hb⟩,
          fun ⟨x, hx, hb⟩ => ⟨x, h.mem_iff.mpr hx, hb⟩⟩

/-- The sweep keeps the map well formed. -/
theorem sweep_wellFormed (ar : FloatArith) (staleTimeout now : F32) (s : ClientState)
    (hwf : s.WellFormed) : (sweep ar staleTimeout now s).1.WellFormed := by
  unfold ClientState.WellFormed at hwf ⊢
  exact hwf.sublist ((List.filter_sublist _).map _)

/-- The timer leaves the map and the live aircraft as the sweep left them. -/
theorem onTimer_registry (ar : FloatArith) (dflt : RemoteMsgSettingsTy)
    (staleTimeout now : F32) (s : ClientState) :
    (onTimer ar dflt staleTimeout now s).rcGlob.gmapSender =
      (sweep ar staleTimeout now s).1.rcGlob.gmapSender ∧
    getLiveAircraft (onTimer ar dflt staleTimeout now s) =
      getLiveAircraft (sweep ar staleTimeout now s).1 := by
  by_cases h : ((sweep ar staleTimeout now s).2.membershipChanged ||
      (sweep ar staleTimeout now s).2.settingsChanged) = true <;>
    simp [onTimer, h, remerge, getLiveAircraft]

/-- C3: for every non-empty map of live senders, the maximum label distance
of the merged settings held in `mergedS` is at least the value declared by
every sender, it is the value declared by one of them (so it is the maximum
across the senders), and the merged settings are the same for every order of
the senders in the map. -/
theorem mergedS_maxLabelDist_is_max (dflt : RemoteMsgSettingsTy) (g : XPMP2RCGlobals)
    (hne : g.gmapSender ≠ []) :
    (∀ p ∈ g.gmapSender,
      p.declaredSettings.maxLabelDist ≤ (remerge dflt g).mergedS.maxLabelDist) ∧
    (∃ p ∈ g.gmapSender,
      (remerge dflt g).mergedS.maxLabelDist = p.declaredSettings.maxLabelDist) ∧
    (∀ g2 : XPMP2RCGlobals, g2.gmapSender.Perm g.gmapSender →
      (remerge dflt g2).mergedS = (remerge dflt g).mergedS) := by
  refine ⟨?_, ?_, ?_⟩
  · intro p hp
    cases hg : g.gmapSender with
    | nil => exact absurd hg hne
    | cons q qs =>
      simp only [remerge, declared, hg, List.map_cons, merge_cons_eq]
      apply foldr_max_ge
      rw [hg] at hp
      rcases List.mem_cons.mp hp with h | h
      · subst h; simp
      · exact List.mem_cons_of_mem _ (List.mem_map.mpr ⟨(p.identity, p.declaredSettings),
          List.mem_map.mpr ⟨p, h, rfl⟩, rfl⟩)
  · cases hg : g.gmapSender with
    | nil => exact absurd hg hne
    | cons q qs =>
      simp only [remerge, declared, hg, List.map_cons, merge_cons_eq]
      have hmem := foldr_max_mem
        (q.declaredSettings.maxLabelDist ::
          (qs.map (fun p => (p.identity, p.declaredSettings))).map (fun q => q.2.maxLabelDist))
        (by simp)
      rcases List.mem_cons.mp hmem with h | h
      · exact ⟨q, by simp, h⟩
      · simp only [List.mem_map] at h
        obtain ⟨_, ⟨p, hp, rfl⟩, hpe⟩ := h
        exact ⟨p, List.mem_cons_of_mem _ hp, hpe.symm⟩
  · intro g2 hperm
    simp only [remerge, declared]
    exact merge_perm dflt _ _ (hperm.map _)

/-- The merged settings of the senders A (50 km, no labels) and B (80 km,
labels). -/
theorem sample_mergedS :
    (remerge Sample.dflt Sample.rcGlob).mergedS =
      { maxLabelDist := 80000, bDrawLabels := true } := rfl

/-- C3 at the senders A (50 km) and B (80 km): the merged maximum label
distance is at least the value of each, and the same with B ingested before
A. -/
theorem mergedS_maxLabelDist_is_max_witness :
    Sample.rcGlob.gmapSender ≠ [] ∧
    (∀ p ∈ Sample.rcGlob.gmapSender,
      p.declaredSettings.maxLabelDist ≤
        (remerge Sample.dflt Sample.rcGlob).mergedS.maxLabelDist) ∧
    (remerge Sample.dflt { Sample.rcGlob with gmapSender := [Sample.senderB, Sample.senderA] }).mergedS =
      (remerge Sample.dflt Sample.rcGlob).mergedS :=
  ⟨List.cons_ne_nil _ _,
   (mergedS_maxLabelDist_is_max Sample.dflt Sample.rcGlob (List.cons_ne_nil _ _)).1,
   (mergedS_maxLabelDist_is_max Sample.dflt Sample.rcGlob (List.cons_ne_nil _ _)).2.2
     { Sample.rcGlob with gmapSender := [Sample.senderB, Sample.senderA] }
     (List.Perm.swap _ _ _)⟩

/-- C4: for every sender `P` of a well formed sender map for which
`now - lastSeen > staleTimeout`, after `sweep(now)` (and after the timer
step running it) the identity of `P` is no key of the sender map and no
aircraft of the live aircraft set is owned by `P`; the map stays well
formed. -/
theorem sweep_removes_stale_sender (ar : FloatArith) (dflt : RemoteMsgSettingsTy)
    (staleTimeout now : F32) (s : ClientState) (hwf : s.WellFormed)
    (P : PeerRecord) (hP : P ∈ s.rcGlob.gmapSender)
    (hstale : F32.gt (ar.sub now P.lastSeen) staleTimeout = true) :
    P.identity ∉ (sweep ar staleTimeout now s).1.rcGlob.gmapSender.map PeerRecord.identity ∧
    (∀ a ∈ getLiveAircraft (sweep ar staleTimeout now s).1, a.owner ≠ P.identity) ∧
    P.identity ∉ (onTimer ar dflt staleTimeout now s).rcGlob.gmapSender.map PeerRecord.identity ∧
    (∀ a ∈ getLiveAircraft (onTimer ar dflt staleTimeout now s), a.owner ≠ P.identity) ∧
    (sweep ar staleTimeout now s).1.WellFormed := by
  have h1 : P.identity ∉
      (sweep ar staleTimeout now s).1.rcGlob.gmapSender.map PeerRecord.identity := by
    intro hmem
    obtain ⟨q, hq, hqid⟩ := List.mem_map.mp hmem
    simp only [sweep, List.mem_filter] at hq
    have : q = P := List.inj_on_of_nodup_map hwf hq.1 hP hqid
    subst this
    simp [isStale, hstale] at hq
  have h2 : ∀ a ∈ getLiveAircraft (sweep ar staleTimeout now s).1, a.owner ≠ P.identity := by
    intro a ha hown
    simp only [getLiveAircraft, sweep, List.mem_filter] at ha
    have hany : (List.filter (fun p => isStale ar staleTimeout now p) s.rcGlob.gmapSender).any
        (fun p => p.identity == a.owner) = true := by
      rw [List.any_eq_true]
      exact ⟨P, List.mem_filter.mpr ⟨hP, hstale⟩, by simp [hown]⟩
    simp [hany] at ha
  have h3 := onTimer_registry ar dflt staleTimeout now s
  refine ⟨h1, h2, ?_, ?_, sweep_wellFormed ar staleTimeout now s hwf⟩
  · rw [h3.1]; exact h1
  · rw [h3.2]; exact h2

/-- C4 at the senders A (last heard of at second 1) and B (at second 31), a
timeout of 30 seconds and the sweep at second 32: A and its aircraft are
gone. -/
theorem sweep_removes_stale_sender_witness :
    Sample.client.WellFormed ∧
    Sample.senderA ∈ Sample.client.rcGlob.gmapSender ∧
    F32.gt (Sample.exactArith.sub (F32.fin 32) Sample.senderA.lastSeen) (F32.fin 30) = true ∧
    Sample.senderA.identity ∉
      (sweep Sample.exactArith (F32.fin 30) (F32.fin 32) Sample.client).1.rcGlob.gmapSender.map
        PeerRecord.identity ∧
    (∀ a ∈ getLiveAircraft (sweep Sample.exactArith (F32.fin 30) (F32.fin 32) Sample.client).1,
      a.owner ≠ Sample.senderA.identity) :=
  have hwf : Sample.client.WellFormed := by
    simp [ClientState.WellFormed, Sample.client, Sample.rcGlob, Sample.senderA, Sample.senderB]
  have hP : Sample.senderA ∈ Sample.client.rcGlob.gmapSender := by
    simp [Sample.client, Sample.rcGlob]
  have hst : F32.gt (Sample.exactArith.sub (F32.fin 32) Sample.senderA.lastSeen)
      (F32.fin 30) = true := by
    norm_num [Sample.exactArith, Sample.exactOp, Sample.senderA, F32.gt, F32.lt]
  ⟨hwf, hP, hst,
   (sweep_removes_stale_sender Sample.exactArith Sample.dflt (F32.fin 30) (F32.fin 32)
      Sample.client hwf Sample.senderA hP hst).1,
   (sweep_removes_stale_sender Sample.exactArith Sample.dflt (F32.fin 30) (F32.fin 32)
      Sample.client hwf Sample.senderA hP hst).2.1⟩

end Remote

end XPMP2
